import Mathlib

/-!
# Verification of the p8est reference-geometry core

This file gives a shallow embedding, over exact real arithmetic, of the
built-in geometries of `src/p8est_geometry.c` (identity, spherical shell,
solid sphere) together with the connectivity enumeration constants of
`p8est_connectivity.h`, and proves the specified properties about them.

Machine doubles are modelled by `ℝ`; `pow` on doubles is `Real.rpow`,
`tan`/`cos`/`sqrt`/`log` are the Mathlib real functions.  Tree indices are
natural numbers (the C type is a signed integer, and every claim restricts
attention to nonnegative indices).  A C `switch` whose `default` branch is
`SC_CHECK_NOT_REACHED ()` is modelled by returning zeros in the unreachable
branch; every theorem below restricts the tree index to the reachable range.
-/

open Real

set_option linter.unusedVariables false

namespace P8est

/-- A 3-vector of reals, standing for the C array `double [3]`. -/
abbrev Vec3 := ℝ × ℝ × ℝ

/-- A 3×3 matrix of reals, standing for the C array `double [3][3]`. -/
@[ext] structure Mat3 where
  m00 : ℝ
  m01 : ℝ
  m02 : ℝ
  m10 : ℝ
  m11 : ℝ
  m12 : ℝ
  m20 : ℝ
  m21 : ℝ
  m22 : ℝ

/-- Determinant of a 3×3 matrix, expanded along the first row exactly as in
the C source (`J[0][0] * (J[1][1]*J[2][2] - J[1][2]*J[2][1]) + ...`). -/
def det3 (m : Mat3) : ℝ :=
  m.m00 * (m.m11 * m.m22 - m.m12 * m.m21)
    + m.m01 * (m.m12 * m.m20 - m.m10 * m.m22)
    + m.m02 * (m.m10 * m.m21 - m.m11 * m.m20)

/-- The 3×3 identity matrix. -/
def id3 : Mat3 := ⟨1, 0, 0, 0, 1, 0, 0, 0, 1⟩

/-- Matrix transpose. -/
def transpose3 (m : Mat3) : Mat3 :=
  ⟨m.m00, m.m10, m.m20, m.m01, m.m11, m.m21, m.m02, m.m12, m.m22⟩

/-- Matrix product of two 3×3 matrices. -/
def mul3 (a b : Mat3) : Mat3 :=
  ⟨a.m00 * b.m00 + a.m01 * b.m10 + a.m02 * b.m20,
   a.m00 * b.m01 + a.m01 * b.m11 + a.m02 * b.m21,
   a.m00 * b.m02 + a.m01 * b.m12 + a.m02 * b.m22,
   a.m10 * b.m00 + a.m11 * b.m10 + a.m12 * b.m20,
   a.m10 * b.m01 + a.m11 * b.m11 + a.m12 * b.m21,
   a.m10 * b.m02 + a.m11 * b.m12 + a.m12 * b.m22,
   a.m20 * b.m00 + a.m21 * b.m10 + a.m22 * b.m20,
   a.m20 * b.m01 + a.m21 * b.m11 + a.m22 * b.m21,
   a.m20 * b.m02 + a.m21 * b.m12 + a.m22 * b.m22⟩

/-- A geometry object: the four function-pointer slots of
`p8est_geometry_t`.  `J` and `Jit` fill a matrix and return `detJ`, modelled
as returning the pair. -/
structure p8est_geometry where
  X : ℕ → Vec3 → Vec3
  D : ℕ → Vec3 → ℝ
  J : ℕ → Vec3 → Mat3 × ℝ
  Jit : ℕ → Vec3 → Mat3 × ℝ

/-- `p8est_geometry_Jit`: the default inverse-transpose-Jacobian, computed
from the geometry's `J` operation by the nine cofactors divided by `detJ`,
returning the `detJ` obtained from `J`. -/
noncomputable def p8est_geometry_Jit (Jop : ℕ → Vec3 → Mat3 × ℝ)
    (which_tree : ℕ) (abc : Vec3) : Mat3 × ℝ :=
  let J := (Jop which_tree abc).1
  let detJ := (Jop which_tree abc).2
  let idetJ := 1 / detJ
  (⟨(J.m11 * J.m22 - J.m12 * J.m21) * idetJ,
    (J.m12 * J.m20 - J.m10 * J.m22) * idetJ,
    (J.m10 * J.m21 - J.m11 * J.m20) * idetJ,
    (J.m02 * J.m21 - J.m01 * J.m22) * idetJ,
    (J.m00 * J.m22 - J.m02 * J.m20) * idetJ,
    (J.m01 * J.m20 - J.m00 * J.m21) * idetJ,
    (J.m01 * J.m12 - J.m11 * J.m02) * idetJ,
    (J.m02 * J.m10 - J.m12 * J.m00) * idetJ,
    (J.m00 * J.m11 - J.m10 * J.m01) * idetJ⟩, detJ)

/-- `p8est_geometry_identity_X`: copies `abc` to `xyz`. -/
def p8est_geometry_identity_X (which_tree : ℕ) (abc : Vec3) : Vec3 := abc

/-- `p8est_geometry_identity_D`: returns 1. -/
def p8est_geometry_identity_D (which_tree : ℕ) (abc : Vec3) : ℝ := 1

/-- `p8est_geometry_identity_J`: fills the identity matrix, returns 1. -/
def p8est_geometry_identity_J (which_tree : ℕ) (abc : Vec3) : Mat3 × ℝ :=
  (id3, 1)

/-- `p8est_geometry_new_identity`: the identity geometry; note that the
`Jit` slot is set to the same function as the `J` slot. -/
def p8est_geometry_new_identity : p8est_geometry :=
  { X := p8est_geometry_identity_X
    D := p8est_geometry_identity_D
    J := p8est_geometry_identity_J
    Jit := p8est_geometry_identity_J }

/-- `p8est_geometry_shell_X`.  The struct fields `R2byR1`, `R1sqrbyR2`
precomputed by `p8est_geometry_new_shell` are bound as local lets.  The
`switch (which_tree / 4)` is mirrored with its cases in source order. -/
noncomputable def p8est_geometry_shell_X (R2 R1 : ℝ)
    (which_tree : ℕ) (abc : Vec3) : Vec3 :=
  let R2byR1 := R2 / R1
  let R1sqrbyR2 := R1 * R1 / R2
  let x := Real.tan (abc.1 * (Real.pi / 4))
  let y := Real.tan (abc.2.1 * (Real.pi / 4))
  let R := R1sqrbyR2 * R2byR1 ^ abc.2.2
  let q := R / Real.sqrt (x * x + y * y + 1)
  if which_tree / 4 = 3 then (q * y, -(q * x), q)              -- top
  else if which_tree / 4 = 2 then (-q, -(q * x), q * y)        -- left
  else if which_tree / 4 = 1 then (-(q * y), -(q * x), -q)     -- bottom
  else if which_tree / 4 = 0 then (q, -(q * x), -(q * y))      -- right
  else if which_tree / 4 = 4 then (-(q * x), q, q * y)         -- back
  else if which_tree / 4 = 5 then (q * x, -q, q * y)           -- front
  else (0, 0, 0)                                -- SC_CHECK_NOT_REACHED

/-- `p8est_geometry_shell_D`: determinant-only path; builds the
patch-independent matrix and scales its determinant. -/
noncomputable def p8est_geometry_shell_D (R2 R1 : ℝ)
    (which_tree : ℕ) (abc : Vec3) : ℝ :=
  let R2byR1 := R2 / R1
  let R1sqrbyR2 := R1 * R1 / R2
  let Rlog := Real.log (R2 / R1)
  let cx := Real.cos (abc.1 * (Real.pi / 4))
  let derx := Real.pi / 4 / (cx * cx)
  let x := Real.tan (abc.1 * (Real.pi / 4))
  let cy := Real.cos (abc.2.1 * (Real.pi / 4))
  let dery := Real.pi / 4 / (cy * cy)
  let y := Real.tan (abc.2.1 * (Real.pi / 4))
  let R := R1sqrbyR2 * R2byR1 ^ abc.2.2
  let t := 1 / (x * x + y * y + 1)
  let q := R * Real.sqrt t
  let J : Mat3 :=
    ⟨1 - x * x * t, -(x * y * t), x,
     -(x * y * t), 1 - y * y * t, y,
     -(x * t), -(y * t), 1⟩
  det3 J * q * q * q * derx * dery * Rlog

/-- `p8est_geometry_shell_J`: fills the per-patch Jacobian (switch on
`which_tree / 4`, cases in source order) and returns its determinant. -/
noncomputable def p8est_geometry_shell_J (R2 R1 : ℝ)
    (which_tree : ℕ) (abc : Vec3) : Mat3 × ℝ :=
  let R2byR1 := R2 / R1
  let R1sqrbyR2 := R1 * R1 / R2
  let Rlog := Real.log (R2 / R1)
  let cx := Real.cos (abc.1 * (Real.pi / 4))
  let derx := Real.pi / 4 / (cx * cx)
  let x := Real.tan (abc.1 * (Real.pi / 4))
  let cy := Real.cos (abc.2.1 * (Real.pi / 4))
  let dery := Real.pi / 4 / (cy * cy)
  let y := Real.tan (abc.2.1 * (Real.pi / 4))
  let R := R1sqrbyR2 * R2byR1 ^ abc.2.2
  let t := 1 / (x * x + y * y + 1)
  let q := R * Real.sqrt t
  let J : Mat3 :=
    if which_tree / 4 = 3 then                      -- top
      ⟨-q * x * y * t * derx, q * (1 - y * y * t) * dery, q * y * Rlog,
       -q * (1 - x * x * t) * derx, q * x * y * t * dery, -q * x * Rlog,
       -q * x * t * derx, -q * y * t * dery, q * Rlog⟩
    else if which_tree / 4 = 2 then                 -- left
      ⟨q * x * t * derx, q * y * t * dery, -q * Rlog,
       -q * (1 - x * x * t) * derx, q * x * y * t * dery, -q * x * Rlog,
       -q * x * y * t * derx, q * (1 - y * y * t) * dery, q * y * Rlog⟩
    else if which_tree / 4 = 1 then                 -- bottom
      ⟨q * x * y * t * derx, -q * (1 - y * y * t) * dery, -q * y * Rlog,
       -q * (1 - x * x * t) * derx, q * x * y * t * dery, -q * x * Rlog,
       q * x * t * derx, q * y * t * dery, -q * Rlog⟩
    else if which_tree / 4 = 0 then                 -- right
      ⟨-q * x * t * derx, -q * y * t * dery, q * Rlog,
       -q * (1 - x * x * t) * derx, q * x * y * t * dery, -q * x * Rlog,
       q * x * y * t * derx, -q * (1 - y * y * t) * dery, -q * y * Rlog⟩
    else if which_tree / 4 = 4 then                 -- back
      ⟨-q * (1 - x * x * t) * derx, q * x * y * t * dery, -q * x * Rlog,
       -q * x * t * derx, -q * y * t * dery, q * Rlog,
       -q * x * y * t * derx, q * (1 - y * y * t) * dery, q * y * Rlog⟩
    else if which_tree / 4 = 5 then                 -- front
      ⟨q * (1 - x * x * t) * derx, -q * x * y * t * dery, q * x * Rlog,
       q * x * t * derx, q * y * t * dery, -q * Rlog,
       -q * x * y * t * derx, q * (1 - y * y * t) * dery, q * y * Rlog⟩
    else ⟨0, 0, 0, 0, 0, 0, 0, 0, 0⟩                -- SC_CHECK_NOT_REACHED
  (J, det3 J)

/-- `p8est_geometry_new_shell`: the shell geometry object, with the shared
default `Jit`. -/
noncomputable def p8est_geometry_new_shell (R2 R1 : ℝ) : p8est_geometry :=
  { X := p8est_geometry_shell_X R2 R1
    D := p8est_geometry_shell_D R2 R1
    J := p8est_geometry_shell_J R2 R1
    Jit := p8est_geometry_Jit (p8est_geometry_shell_J R2 R1) }

/-- The patch `switch (which_tree % 6)` shared by the outer- and
inner-shell branches of `p8est_geometry_sphere_X`, cases in source order
(front, top, back, right, bottom, left). -/
def sphere_patch (q x y : ℝ) (pid : ℕ) : Vec3 :=
  if pid = 0 then (q * x, -q, q * y)               -- front
  else if pid = 1 then (q * x, q * y, q)           -- top
  else if pid = 2 then (q * x, q, -(q * y))        -- back
  else if pid = 3 then (q, -(q * x), -(q * y))     -- right
  else if pid = 4 then (-(q * y), -(q * x), -q)    -- bottom
  else if pid = 5 then (-q, -(q * x), q * y)       -- left
  else (0, 0, 0)                                   -- SC_CHECK_NOT_REACHED

/-- The `mapJ` row-index table of `p8est_geometry_sphere_J`. -/
def mapJ (pid : ℕ) : ℕ × ℕ × ℕ :=
  if pid = 0 then (0, 2, 1)
  else if pid = 1 then (0, 1, 2)
  else if pid = 2 then (0, 2, 1)
  else if pid = 3 then (1, 2, 0)
  else if pid = 4 then (1, 0, 2)
  else (1, 2, 0)

/-- The `mapM` sign table of `p8est_geometry_sphere_J`. -/
def mapM (pid : ℕ) : ℝ × ℝ × ℝ :=
  if pid = 0 then (1, 1, -1)
  else if pid = 1 then (1, 1, 1)
  else if pid = 2 then (1, -1, 1)
  else if pid = 3 then (-1, -1, 1)
  else if pid = 4 then (-1, -1, -1)
  else (-1, 1, -1)

/-- Assemble a 3×3 matrix from three rows written to row indices
`j0, j1, j2` in that order; a later assignment overwrites an earlier one
(C array-store semantics), and a row never written stays 0. -/
def mat3_place (j0 j1 j2 : ℕ) (r0 r1 r2 : Vec3) : Mat3 :=
  let row : ℕ → Vec3 := fun i =>
    if j2 = i then r2 else if j1 = i then r1 else if j0 = i then r0
    else (0, 0, 0)
  ⟨(row 0).1, (row 0).2.1, (row 0).2.2,
   (row 1).1, (row 1).2.1, (row 1).2.2,
   (row 2).1, (row 2).2.1, (row 2).2.2⟩

/-- `p8est_geometry_sphere_X`.  The struct fields precomputed by
`p8est_geometry_new_sphere` are bound as local lets; `0.5` in the source is
written `1 / 2`. -/
noncomputable def p8est_geometry_sphere_X (R2 R1 R0 : ℝ)
    (which_tree : ℕ) (abc : Vec3) : Vec3 :=
  let R2byR1 := R2 / R1
  let R1sqrbyR2 := R1 * R1 / R2
  let R1byR0 := R1 / R0
  let R0sqrbyR1 := R0 * R0 / R1
  let Clength := R0 / Real.sqrt 3
  if which_tree < 6 then        -- outer shell
    let x := Real.tan (abc.1 * (Real.pi / 4))
    let y := Real.tan (abc.2.1 * (Real.pi / 4))
    let R := R1sqrbyR2 * R2byR1 ^ abc.2.2
    let q := R / Real.sqrt (x * x + y * y + 1)
    sphere_patch q x y (which_tree % 6)
  else if which_tree < 12 then  -- inner shell
    let p := 2 - abc.2.2
    let tanx := Real.tan (abc.1 * (Real.pi / 4))
    let tany := Real.tan (abc.2.1 * (Real.pi / 4))
    let x := p * abc.1 + (1 - p) * tanx
    let y := p * abc.2.1 + (1 - p) * tany
    let R := R0sqrbyR1 * R1byR0 ^ abc.2.2
    let q := R / Real.sqrt (1 + (1 - p) * (tanx * tanx + tany * tany) + 2 * p)
    sphere_patch q x y (which_tree % 6)
  else                          -- center cube
    (abc.1 * Clength, abc.2.1 * Clength, abc.2.2 * Clength)

/-- `p8est_geometry_sphere_D`: determinant-only path. -/
noncomputable def p8est_geometry_sphere_D (R2 R1 R0 : ℝ)
    (which_tree : ℕ) (abc : Vec3) : ℝ :=
  let R2byR1 := R2 / R1
  let R1sqrbyR2 := R1 * R1 / R2
  let R1log := Real.log (R2 / R1)
  let R1byR0 := R1 / R0
  let R0sqrbyR1 := R0 * R0 / R1
  let R0log := Real.log (R1 / R0)
  let CdetJ := (R0 / Real.sqrt 3) ^ (3 : ℝ)
  if which_tree < 6 then        -- outer shell
    let cx := Real.cos (abc.1 * (Real.pi / 4))
    let derx := Real.pi / 4 / (cx * cx)
    let x := Real.tan (abc.1 * (Real.pi / 4))
    let cy := Real.cos (abc.2.1 * (Real.pi / 4))
    let dery := Real.pi / 4 / (cy * cy)
    let y := Real.tan (abc.2.1 * (Real.pi / 4))
    let R := R1sqrbyR2 * R2byR1 ^ abc.2.2
    let t := 1 / (x * x + y * y + 1)
    let q := R * Real.sqrt t
    let Rlog := R1log
    let J : Mat3 :=
      ⟨1 - x * x * t, -(x * y * t), x,
       -(x * y * t), 1 - y * y * t, y,
       -(x * t), -(y * t), 1⟩
    det3 J * (q * q * q * derx * dery * Rlog)
  else if which_tree < 12 then  -- inner shell
    let p := 2 - abc.2.2
    let cx := Real.cos (abc.1 * (Real.pi / 4))
    let derx := (1 - p) * (Real.pi / 4) / (cx * cx)
    let tanx := Real.tan (abc.1 * (Real.pi / 4))
    let x := p * abc.1 + (1 - p) * tanx
    let cy := Real.cos (abc.2.1 * (Real.pi / 4))
    let dery := (1 - p) * (Real.pi / 4) / (cy * cy)
    let tany := Real.tan (abc.2.1 * (Real.pi / 4))
    let y := p * abc.2.1 + (1 - p) * tany
    let R := R0sqrbyR1 * R1byR0 ^ abc.2.2
    let tsqr := tanx * tanx + tany * tany
    let t := 1 / (1 + (1 - p) * tsqr + 2 * p)
    let q := R * Real.sqrt t
    let Rlog := R0log + t * (1 - 1 / 2 * tsqr)
    let J : Mat3 :=
      ⟨p + (1 - x * tanx * t) * derx, -(x * tany * t) * dery,
       x * Rlog - abc.1 + tanx,
       -(y * tanx * t) * derx, p + (1 - y * tany * t) * dery,
       y * Rlog - abc.2.1 + tany,
       -(tanx * t) * derx, -(tany * t) * dery, Rlog⟩
    det3 J * (q * q * q)
  else                          -- center cube
    CdetJ

/-- `p8est_geometry_sphere_J`: per-patch Jacobian assembled through the
`mapJ` / `mapM` tables; returns the inline determinant except in the
center cube, which returns the precomputed `CdetJ`. -/
noncomputable def p8est_geometry_sphere_J (R2 R1 R0 : ℝ)
    (which_tree : ℕ) (abc : Vec3) : Mat3 × ℝ :=
  let R2byR1 := R2 / R1
  let R1sqrbyR2 := R1 * R1 / R2
  let R1log := Real.log (R2 / R1)
  let R1byR0 := R1 / R0
  let R0sqrbyR1 := R0 * R0 / R1
  let R0log := Real.log (R1 / R0)
  let Clength := R0 / Real.sqrt 3
  let CdetJ := (R0 / Real.sqrt 3) ^ (3 : ℝ)
  if which_tree < 6 then        -- outer shell
    let cx := Real.cos (abc.1 * (Real.pi / 4))
    let derx := Real.pi / 4 / (cx * cx)
    let x := Real.tan (abc.1 * (Real.pi / 4))
    let cy := Real.cos (abc.2.1 * (Real.pi / 4))
    let dery := Real.pi / 4 / (cy * cy)
    let y := Real.tan (abc.2.1 * (Real.pi / 4))
    let R := R1sqrbyR2 * R2byR1 ^ abc.2.2
    let t := 1 / (x * x + y * y + 1)
    let q := R * Real.sqrt t
    let Rlog := R1log
    let pid := which_tree
    let q0 := (mapM pid).1 * q
    let q1 := (mapM pid).2.1 * q
    let q2 := (mapM pid).2.2 * q
    let J := mat3_place (mapJ pid).1 (mapJ pid).2.1 (mapJ pid).2.2
      (q0 * (1 - x * x * t) * derx, -q0 * x * y * t * dery, q0 * x * Rlog)
      (-q1 * x * y * t * derx, q1 * (1 - y * y * t) * dery, q1 * y * Rlog)
      (-q2 * x * t * derx, -q2 * y * t * dery, q2 * Rlog)
    (J, det3 J)
  else if which_tree < 12 then  -- inner shell
    let p := 2 - abc.2.2
    let cx := Real.cos (abc.1 * (Real.pi / 4))
    let derx := (1 - p) * (Real.pi / 4) / (cx * cx)
    let tanx := Real.tan (abc.1 * (Real.pi / 4))
    let x := p * abc.1 + (1 - p) * tanx
    let cy := Real.cos (abc.2.1 * (Real.pi / 4))
    let dery := (1 - p) * (Real.pi / 4) / (cy * cy)
    let tany := Real.tan (abc.2.1 * (Real.pi / 4))
    let y := p * abc.2.1 + (1 - p) * tany
    let R := R0sqrbyR1 * R1byR0 ^ abc.2.2
    let tsqr := tanx * tanx + tany * tany
    let t := 1 / (1 + (1 - p) * tsqr + 2 * p)
    let q := R * Real.sqrt t
    let Rlog := R0log + t * (1 - 1 / 2 * tsqr)
    let pid := which_tree - 6
    let q0 := (mapM pid).1 * q
    let q1 := (mapM pid).2.1 * q
    let q2 := (mapM pid).2.2 * q
    let J := mat3_place (mapJ pid).1 (mapJ pid).2.1 (mapJ pid).2.2
      (q0 * (p + (1 - x * tanx * t) * derx), -q0 * x * tany * t * dery,
       q0 * (x * Rlog - abc.1 + tanx))
      (-q1 * y * tanx * t * derx, q1 * (p + (1 - y * tany * t) * dery),
       q1 * (y * Rlog - abc.2.1 + tany))
      (-q2 * tanx * t * derx, -q2 * tany * t * dery, q2 * Rlog)
    (J, det3 J)
  else                          -- center cube
    (⟨Clength, 0, 0, 0, Clength, 0, 0, 0, Clength⟩, CdetJ)

/-- `p8est_geometry_new_sphere`: the sphere geometry object, with the shared
default `Jit`. -/
noncomputable def p8est_geometry_new_sphere (R2 R1 R0 : ℝ) : p8est_geometry :=
  { X := p8est_geometry_sphere_X R2 R1 R0
    D := p8est_geometry_sphere_D R2 R1 R0
    J := p8est_geometry_sphere_J R2 R1 R0
    Jit := p8est_geometry_Jit (p8est_geometry_sphere_J R2 R1 R0) }

/-- `P8EST_CONNECT_FACE` from `p8est_connectivity.h`. -/
def P8EST_CONNECT_FACE : ℤ := 31

/-- `P8EST_CONNECT_EDGE` from `p8est_connectivity.h`. -/
def P8EST_CONNECT_EDGE : ℤ := 32

/-- `P8EST_CONNECT_CORNER` from `p8est_connectivity.h`. -/
def P8EST_CONNECT_CORNER : ℤ := 33

/-- `P8EST_CONNECT_DEFAULT`, an alias for `P8EST_CONNECT_EDGE`. -/
def P8EST_CONNECT_DEFAULT : ℤ := P8EST_CONNECT_EDGE

/-- `P8EST_CONNECT_FULL`, an alias for `P8EST_CONNECT_CORNER`. -/
def P8EST_CONNECT_FULL : ℤ := P8EST_CONNECT_CORNER

/-- The patch-independent matrix built by `shell_D` (and by the outer-shell
branch of `sphere_D`) has determinant exactly 1, for any value of the
auxiliary variable `t`. -/
lemma det3_shell_base (x y t : ℝ) :
    det3 ⟨1 - x * x * t, -(x * y * t), x,
          -(x * y * t), 1 - y * y * t, y,
          -(x * t), -(y * t), 1⟩ = 1 := by
  simp only [det3]
  ring

/-- The determinant returned by `shell_J` is, entry for entry, the same
real number as the value computed by `shell_D`: the per-patch signed axis
permutations have determinant one. -/
lemma shell_J_snd_eq_D (R2 R1 : ℝ) (which_tree : ℕ) (abc : Vec3)
    (ht : which_tree < 24) :
    (p8est_geometry_shell_J R2 R1 which_tree abc).2 =
      p8est_geometry_shell_D R2 R1 which_tree abc := by
  have h6 : which_tree / 4 = 0 ∨ which_tree / 4 = 1 ∨ which_tree / 4 = 2 ∨
      which_tree / 4 = 3 ∨ which_tree / 4 = 4 ∨ which_tree / 4 = 5 := by
    omega
  unfold p8est_geometry_shell_J p8est_geometry_shell_D
  rcases h6 with h6 | h6 | h6 | h6 | h6 | h6 <;>
    simp only [h6, det3] <;> norm_num <;> ring

/-- `shell_J` returns the determinant of the matrix it fills. -/
lemma shell_J_snd_eq_det3_fst (R2 R1 : ℝ) (which_tree : ℕ) (abc : Vec3) :
    (p8est_geometry_shell_J R2 R1 which_tree abc).2 =
      det3 (p8est_geometry_shell_J R2 R1 which_tree abc).1 := rfl

/-- `cos (a * π/4)` is positive for `a ∈ [-1, 1]`. -/
lemma cos_quarter_pos (a : ℝ) (h1 : -1 ≤ a) (h2 : a ≤ 1) :
    0 < Real.cos (a * (Real.pi / 4)) := by
  have hpi := Real.pi_pos
  apply Real.cos_pos_of_mem_Ioo
  constructor
  · nlinarith [mul_nonneg (show (0:ℝ) ≤ a + 1 by linarith) hpi.le]
  · nlinarith [mul_nonneg (show (0:ℝ) ≤ 1 - a by linarith) hpi.le]

/-- Positivity of the `shell_D` product once its determinant factor is
known to be 1 and each remaining factor is positive. -/
lemma shell_detJ_pos_aux (d q derx dery L : ℝ) (hd : d = 1) (hq : 0 < q)
    (hx : 0 < derx) (hy : 0 < dery) (hL : 0 < L) :
    0 < d * q * q * q * derx * dery * L := by
  rw [hd, one_mul]
  exact mul_pos (mul_pos (mul_pos (mul_pos (mul_pos hq hq) hq) hx) hy) hL

set_option maxHeartbeats 3000000 in
/-- The determinant returned by `sphere_J` equals the value computed by
`sphere_D`, tree by tree: the `mapJ`/`mapM` signed row permutations have
determinant one, and the center cube returns the precomputed `CdetJ` on
both paths. -/
lemma sphere_J_snd_eq_D (R2 R1 R0 : ℝ) (which_tree : ℕ) (abc : Vec3)
    (ht : which_tree < 13) :
    (p8est_geometry_sphere_J R2 R1 R0 which_tree abc).2 =
      p8est_geometry_sphere_D R2 R1 R0 which_tree abc := by
  have h13 : which_tree = 0 ∨ which_tree = 1 ∨ which_tree = 2 ∨
      which_tree = 3 ∨ which_tree = 4 ∨ which_tree = 5 ∨ which_tree = 6 ∨
      which_tree = 7 ∨ which_tree = 8 ∨ which_tree = 9 ∨ which_tree = 10 ∨
      which_tree = 11 ∨ which_tree = 12 := by omega
  rcases h13 with rfl | rfl | rfl | rfl | rfl | rfl | rfl | rfl | rfl |
    rfl | rfl | rfl | rfl
  · simp only [p8est_geometry_sphere_J, p8est_geometry_sphere_D,
      if_pos (show (0:ℕ) < 6 by norm_num)]
    norm_num [mapJ, mapM, mat3_place, det3]
    ring
  · simp only [p8est_geometry_sphere_J, p8est_geometry_sphere_D,
      if_pos (show (1:ℕ) < 6 by norm_num)]
    norm_num [mapJ, mapM, mat3_place, det3]
    ring
  · simp only [p8est_geometry_sphere_J, p8est_geometry_sphere_D,
      if_pos (show (2:ℕ) < 6 by norm_num)]
    norm_num [mapJ, mapM, mat3_place, det3]
    ring
  · simp only [p8est_geometry_sphere_J, p8est_geometry_sphere_D,
      if_pos (show (3:ℕ) < 6 by norm_num)]
    norm_num [mapJ, mapM, mat3_place, det3]
    ring
  · simp only [p8est_geometry_sphere_J, p8est_geometry_sphere_D,
      if_pos (show (4:ℕ) < 6 by norm_num)]
    norm_num [mapJ, mapM, mat3_place, det3]
    ring
  · simp only [p8est_geometry_sphere_J, p8est_geometry_sphere_D,
      if_pos (show (5:ℕ) < 6 by norm_num)]
    norm_num [mapJ, mapM, mat3_place, det3]
    ring
  · simp only [p8est_geometry_sphere_J, p8est_geometry_sphere_D,
      if_neg (show ¬ (6:ℕ) < 6 by norm_num),
      if_pos (show (6:ℕ) < 12 by norm_num), show (6:ℕ) - 6 = 0 from rfl]
    norm_num [mapJ, mapM, mat3_place, det3]
    ring
  · simp only [p8est_geometry_sphere_J, p8est_geometry_sphere_D,
      if_neg (show ¬ (7:ℕ) < 6 by norm_num),
      if_pos (show (7:ℕ) < 12 by norm_num), show (7:ℕ) - 6 = 1 from rfl]
    norm_num [mapJ, mapM, mat3_place, det3]
    ring
  · simp only [p8est_geometry_sphere_J, p8est_geometry_sphere_D,
      if_neg (show ¬ (8:ℕ) < 6 by norm_num),
      if_pos (show (8:ℕ) < 12 by norm_num), show (8:ℕ) - 6 = 2 from rfl]
    norm_num [mapJ, mapM, mat3_place, det3]
    ring
  · simp only [p8est_geometry_sphere_J, p8est_geometry_sphere_D,
      if_neg (show ¬ (9:ℕ) < 6 by norm_num),
      if_pos (show (9:ℕ) < 12 by norm_num), show (9:ℕ) - 6 = 3 from rfl]
    norm_num [mapJ, mapM, mat3_place, det3]
    ring
  · simp only [p8est_geometry_sphere_J, p8est_geometry_sphere_D,
      if_neg (show ¬ (10:ℕ) < 6 by norm_num),
      if_pos (show (10:ℕ) < 12 by norm_num), show (10:ℕ) - 6 = 4 from rfl]
    norm_num [mapJ, mapM, mat3_place, det3]
    ring
  · simp only [p8est_geometry_sphere_J, p8est_geometry_sphere_D,
      if_neg (show ¬ (11:ℕ) < 6 by norm_num),
      if_pos (show (11:ℕ) < 12 by norm_num), show (11:ℕ) - 6 = 5 from rfl]
    norm_num [mapJ, mapM, mat3_place, det3]
    ring
  · simp only [p8est_geometry_sphere_J, p8est_geometry_sphere_D,
      if_neg (show ¬ (12:ℕ) < 6 by norm_num),
      if_neg (show ¬ (12:ℕ) < 12 by norm_num)]

/-- `sphere_J` returns the determinant of the matrix it fills; in the
center cube the precomputed `CdetJ = (R0/√3)^3` is exactly the determinant
of the constant diagonal matrix. -/
lemma sphere_J_snd_eq_det3_fst (R2 R1 R0 : ℝ) (which_tree : ℕ) (abc : Vec3)
    (ht : which_tree < 13) :
    (p8est_geometry_sphere_J R2 R1 R0 which_tree abc).2 =
      det3 (p8est_geometry_sphere_J R2 R1 R0 which_tree abc).1 := by
  rcases lt_or_ge which_tree 6 with h6 | h6
  · simp only [p8est_geometry_sphere_J, if_pos h6]
  · rcases lt_or_ge which_tree 12 with h12 | h12
    · simp only [p8est_geometry_sphere_J, if_neg (by omega : ¬ which_tree < 6),
        if_pos h12]
    · simp only [p8est_geometry_sphere_J, if_neg (by omega : ¬ which_tree < 6),
        if_neg (by omega : ¬ which_tree < 12)]
      rw [show (3:ℝ) = ((3:ℕ):ℝ) by norm_num, Real.rpow_natCast]
      simp only [det3]
      ring

/-- C7: for the identity geometry, `X` returns `abc` unchanged, `J` fills
the 3×3 identity matrix and returns 1, `D` returns 1, and the `Jit`
operation is the very same function as `J` (hence also fills the identity
matrix and returns 1). -/
theorem C7_identity_geometry :
    (∀ (which_tree : ℕ) (abc : Vec3),
      p8est_geometry_new_identity.X which_tree abc = abc) ∧
    (∀ (which_tree : ℕ) (abc : Vec3),
      p8est_geometry_new_identity.J which_tree abc = (id3, 1)) ∧
    (∀ (which_tree : ℕ) (abc : Vec3),
      p8est_geometry_new_identity.D which_tree abc = 1) ∧
    p8est_geometry_new_identity.Jit = p8est_geometry_new_identity.J ∧
    (∀ (which_tree : ℕ) (abc : Vec3),
      p8est_geometry_new_identity.Jit which_tree abc = (id3, 1)) :=
  ⟨fun _ _ => rfl, fun _ _ => rfl, fun _ _ => rfl, rfl, fun _ _ => rfl⟩

/-- C8: the connect-type enumeration has ABI values FACE = 31, EDGE = 32,
CORNER = 33, and the aliases satisfy DEFAULT = EDGE (value 32) and
FULL = CORNER (value 33). -/
theorem C8_connect_type_values :
    P8EST_CONNECT_FACE = 31 ∧ P8EST_CONNECT_EDGE = 32 ∧
    P8EST_CONNECT_CORNER = 33 ∧
    P8EST_CONNECT_DEFAULT = P8EST_CONNECT_EDGE ∧
    P8EST_CONNECT_DEFAULT = 32 ∧
    P8EST_CONNECT_FULL = P8EST_CONNECT_CORNER ∧
    P8EST_CONNECT_FULL = 33 :=
  ⟨rfl, rfl, rfl, rfl, rfl, rfl, rfl⟩

/-- C1: for the shell geometry with `0 < R1 < R2`, every tree in `[0,24)`
and every reference point with `abc[0], abc[1] ∈ [-1,1]` and
`abc[2] ∈ [1,2]`, the determinants returned by `D` and by `J` are strictly
positive (the assertion `detJ > 0` never fails under these
preconditions). -/
theorem C1_shell_detJ_pos (R2 R1 : ℝ) (which_tree : ℕ) (abc : Vec3)
    (hR1 : 0 < R1) (hR12 : R1 < R2) (ht : which_tree < 24)
    (ha1 : -1 ≤ abc.1) (ha2 : abc.1 ≤ 1)
    (hb1 : -1 ≤ abc.2.1) (hb2 : abc.2.1 ≤ 1)
    (hc1 : 1 ≤ abc.2.2) (hc2 : abc.2.2 ≤ 2) :
    0 < p8est_geometry_shell_D R2 R1 which_tree abc ∧
    0 < (p8est_geometry_shell_J R2 R1 which_tree abc).2 := by
  have hR2 : 0 < R2 := hR1.trans hR12
  have hcx : 0 < Real.cos (abc.1 * (Real.pi / 4)) :=
    cos_quarter_pos abc.1 ha1 ha2
  have hcy : 0 < Real.cos (abc.2.1 * (Real.pi / 4)) :=
    cos_quarter_pos abc.2.1 hb1 hb2
  have hD : 0 < p8est_geometry_shell_D R2 R1 which_tree abc := by
    unfold p8est_geometry_shell_D
    apply shell_detJ_pos_aux
    · exact det3_shell_base _ _ _
    · have hs : 0 < Real.tan (abc.1 * (Real.pi / 4)) *
          Real.tan (abc.1 * (Real.pi / 4)) +
          Real.tan (abc.2.1 * (Real.pi / 4)) *
          Real.tan (abc.2.1 * (Real.pi / 4)) + 1 := by
        nlinarith [mul_self_nonneg (Real.tan (abc.1 * (Real.pi / 4))),
          mul_self_nonneg (Real.tan (abc.2.1 * (Real.pi / 4)))]
      exact mul_pos (mul_pos (div_pos (mul_pos hR1 hR1) hR2)
        (Real.rpow_pos_of_pos (div_pos hR2 hR1) _))
        (Real.sqrt_pos.mpr (div_pos one_pos hs))
    · positivity
    · positivity
    · exact Real.log_pos ((one_lt_div hR1).mpr hR12)
  exact ⟨hD, by rw [shell_J_snd_eq_D R2 R1 which_tree abc ht]; exact hD⟩

/-- Witness for C1 with `R1 = 1`, `R2 = 2`, tree 5, `abc = (1/2, -1/2, 3/2)`. -/
theorem C1_shell_detJ_pos_witness :
    ((0:ℝ) < 1 ∧ (1:ℝ) < 2 ∧ (5:ℕ) < 24 ∧
     (-1:ℝ) ≤ 1/2 ∧ (1/2:ℝ) ≤ 1 ∧ (-1:ℝ) ≤ -(1/2) ∧ (-(1/2):ℝ) ≤ 1 ∧
     (1:ℝ) ≤ 3/2 ∧ (3/2:ℝ) ≤ 2) ∧
    (0 < p8est_geometry_shell_D 2 1 5 (1/2, -(1/2), 3/2) ∧
     0 < (p8est_geometry_shell_J 2 1 5 (1/2, -(1/2), 3/2)).2) :=
  ⟨by norm_num,
   C1_shell_detJ_pos 2 1 5 (1/2, -(1/2), 3/2) (by norm_num) (by norm_num)
     (by norm_num) (by norm_num) (by norm_num) (by norm_num) (by norm_num)
     (by norm_num) (by norm_num)⟩

/-- C2: for every built-in geometry (identity; shell over every tree in
`[0,24)`; sphere over every tree in `[0,13)`) and every reference point,
the determinant-only operation `D` returns exactly, in exact real
arithmetic, the determinant of the matrix produced by `J` at the same
`(tree, abc)`, and the value returned by `D` equals the value returned by
`J` — even though the `D` paths use a patch-independent matrix while the
`J` paths apply per-patch signed axis permutations. -/
theorem C2_D_equals_J_det :
    (∀ (which_tree : ℕ) (abc : Vec3),
      p8est_geometry_identity_D which_tree abc =
        det3 (p8est_geometry_identity_J which_tree abc).1 ∧
      p8est_geometry_identity_D which_tree abc =
        (p8est_geometry_identity_J which_tree abc).2) ∧
    (∀ (R2 R1 : ℝ) (which_tree : ℕ) (abc : Vec3), which_tree < 24 →
      p8est_geometry_shell_D R2 R1 which_tree abc =
        det3 (p8est_geometry_shell_J R2 R1 which_tree abc).1 ∧
      p8est_geometry_shell_D R2 R1 which_tree abc =
        (p8est_geometry_shell_J R2 R1 which_tree abc).2) ∧
    (∀ (R2 R1 R0 : ℝ) (which_tree : ℕ) (abc : Vec3), which_tree < 13 →
      p8est_geometry_sphere_D R2 R1 R0 which_tree abc =
        det3 (p8est_geometry_sphere_J R2 R1 R0 which_tree abc).1 ∧
      p8est_geometry_sphere_D R2 R1 R0 which_tree abc =
        (p8est_geometry_sphere_J R2 R1 R0 which_tree abc).2) := by
  refine ⟨fun t abc => ⟨?_, rfl⟩, fun R2 R1 t abc ht => ⟨?_, ?_⟩,
    fun R2 R1 R0 t abc ht => ⟨?_, ?_⟩⟩
  · norm_num [p8est_geometry_identity_D, p8est_geometry_identity_J, det3,
      id3]
  · rw [← shell_J_snd_eq_det3_fst, shell_J_snd_eq_D R2 R1 t abc ht]
  · exact (shell_J_snd_eq_D R2 R1 t abc ht).symm
  · rw [← sphere_J_snd_eq_det3_fst R2 R1 R0 t abc ht,
      sphere_J_snd_eq_D R2 R1 R0 t abc ht]
  · exact (sphere_J_snd_eq_D R2 R1 R0 t abc ht).symm

/-- Witness for C2 at shell tree 0 and sphere tree 7. -/
theorem C2_D_equals_J_det_witness :
    ((0:ℕ) < 24 ∧
     p8est_geometry_shell_D 2 1 0 (0, 0, 1) =
       det3 (p8est_geometry_shell_J 2 1 0 (0, 0, 1)).1) ∧
    ((7:ℕ) < 13 ∧
     p8est_geometry_sphere_D 3 2 1 7 (0, 0, 1) =
       (p8est_geometry_sphere_J 3 2 1 7 (0, 0, 1)).2) :=
  ⟨⟨by norm_num, (C2_D_equals_J_det.2.1 2 1 0 (0, 0, 1) (by norm_num)).1⟩,
   ⟨by norm_num,
    (C2_D_equals_J_det.2.2 3 2 1 7 (0, 0, 1) (by norm_num)).2⟩⟩

/-- C3: for any geometry whose `J` operation at `(which_tree, abc)` returns
the determinant of the matrix it produces, and that determinant is nonzero,
the default `p8est_geometry_Jit` returns the same `detJ` value (without
recomputing it) and fills the inverse transpose of `J`: every entry is a
cofactor divided by `detJ`, and `transpose(Jit) * J` is the identity. -/
theorem C3_Jit_inverse_transpose (Jop : ℕ → Vec3 → Mat3 × ℝ)
    (which_tree : ℕ) (abc : Vec3)
    (h : (Jop which_tree abc).2 = det3 (Jop which_tree abc).1)
    (hne : (Jop which_tree abc).2 ≠ 0) :
    (p8est_geometry_Jit Jop which_tree abc).2 = (Jop which_tree abc).2 ∧
    mul3 (transpose3 (p8est_geometry_Jit Jop which_tree abc).1)
      (Jop which_tree abc).1 = id3 := by
  refine ⟨rfl, ?_⟩
  have hne' : det3 (Jop which_tree abc).1 ≠ 0 := h ▸ hne
  simp only [det3] at hne'
  unfold p8est_geometry_Jit mul3 transpose3 id3
  simp only [h, det3]
  ext <;> (field_simp; ring)

/-- Witness for C3 at the identity geometry's `J` slot. -/
theorem C3_Jit_inverse_transpose_witness :
    ((p8est_geometry_identity_J 0 (0, 0, 0)).2 =
      det3 (p8est_geometry_identity_J 0 (0, 0, 0)).1) ∧
    ((p8est_geometry_identity_J 0 (0, 0, 0)).2 ≠ 0) ∧
    ((p8est_geometry_Jit p8est_geometry_identity_J 0 (0, 0, 0)).2 =
      (p8est_geometry_identity_J 0 (0, 0, 0)).2 ∧
     mul3 (transpose3
        (p8est_geometry_Jit p8est_geometry_identity_J 0 (0, 0, 0)).1)
       (p8est_geometry_identity_J 0 (0, 0, 0)).1 = id3) :=
  ⟨by norm_num [p8est_geometry_identity_J, det3, id3],
   by norm_num [p8est_geometry_identity_J],
   C3_Jit_inverse_transpose p8est_geometry_identity_J 0 (0, 0, 0)
     (by norm_num [p8est_geometry_identity_J, det3, id3])
     (by norm_num [p8est_geometry_identity_J])⟩

/-- Euclidean norm of a 3-vector. -/
noncomputable def norm3 (v : Vec3) : ℝ :=
  Real.sqrt (v.1 * v.1 + v.2.1 * v.2.1 + v.2.2 * v.2.2)

/-- `norm3 v = R` once the sum of squares is `R * R` and `R` is
nonnegative. -/
lemma norm3_of_sum (v : Vec3) (R : ℝ) (hR : 0 ≤ R)
    (h : v.1 * v.1 + v.2.1 * v.2.1 + v.2.2 * v.2.2 = R * R) :
    norm3 v = R := by
  rw [norm3, h, Real.sqrt_mul_self hR]

/-- C4: for the shell geometry, on the radial axis `abc = (0, 0, c)` the
radius factor is `R = (R1²/R2)·(R2/R1)^c` and `X` returns a signed
permutation of `(R, 0, 0)`; in particular with `R1 = 1`, `R2 = 2`, tree 0
and `c = 3/2`, `X` returns `(R, 0, 0)` with `R = (1/2)·2^(3/2)`. -/
theorem C4_shell_X_on_axis (R2 R1 c : ℝ) (which_tree : ℕ)
    (hR1 : 0 < R1) (hR12 : R1 < R2) (ht : which_tree < 24)
    (hc1 : 1 ≤ c) (hc2 : c ≤ 2) :
    (p8est_geometry_shell_X R2 R1 which_tree (0, 0, c) =
        (R1 * R1 / R2 * (R2 / R1) ^ c, 0, 0) ∨
     p8est_geometry_shell_X R2 R1 which_tree (0, 0, c) =
        (-(R1 * R1 / R2 * (R2 / R1) ^ c), 0, 0) ∨
     p8est_geometry_shell_X R2 R1 which_tree (0, 0, c) =
        (0, R1 * R1 / R2 * (R2 / R1) ^ c, 0) ∨
     p8est_geometry_shell_X R2 R1 which_tree (0, 0, c) =
        (0, -(R1 * R1 / R2 * (R2 / R1) ^ c), 0) ∨
     p8est_geometry_shell_X R2 R1 which_tree (0, 0, c) =
        (0, 0, R1 * R1 / R2 * (R2 / R1) ^ c) ∨
     p8est_geometry_shell_X R2 R1 which_tree (0, 0, c) =
        (0, 0, -(R1 * R1 / R2 * (R2 / R1) ^ c))) ∧
    p8est_geometry_shell_X 2 1 0 (0, 0, 3 / 2) =
      (1 / 2 * (2:ℝ) ^ ((3:ℝ) / 2), 0, 0) := by
  constructor
  · have h6 : which_tree / 4 = 0 ∨ which_tree / 4 = 1 ∨
        which_tree / 4 = 2 ∨ which_tree / 4 = 3 ∨ which_tree / 4 = 4 ∨
        which_tree / 4 = 5 := by omega
    rcases h6 with h | h | h | h | h | h
    · left
      simp only [p8est_geometry_shell_X, h]
      norm_num [Real.tan_zero, Real.sqrt_one]
    · right; right; right; right; right
      simp only [p8est_geometry_shell_X, h]
      norm_num [Real.tan_zero, Real.sqrt_one]
    · right; left
      simp only [p8est_geometry_shell_X, h]
      norm_num [Real.tan_zero, Real.sqrt_one]
    · right; right; right; right; left
      simp only [p8est_geometry_shell_X, h]
      norm_num [Real.tan_zero, Real.sqrt_one]
    · right; right; left
      simp only [p8est_geometry_shell_X, h]
      norm_num [Real.tan_zero, Real.sqrt_one]
    · right; right; right; left
      simp only [p8est_geometry_shell_X, h]
      norm_num [Real.tan_zero, Real.sqrt_one]
  · simp only [p8est_geometry_shell_X]
    norm_num [Real.tan_zero, Real.sqrt_one]

/-- Witness for C4 at `R1 = 1`, `R2 = 2`, tree 0, `c = 3/2`. -/
theorem C4_shell_X_on_axis_witness :
    ((0:ℝ) < 1 ∧ (1:ℝ) < 2 ∧ (0:ℕ) < 24 ∧ (1:ℝ) ≤ 3/2 ∧ (3/2:ℝ) ≤ 2) ∧
    p8est_geometry_shell_X 2 1 0 (0, 0, 3 / 2) =
      (1 / 2 * (2:ℝ) ^ ((3:ℝ) / 2), 0, 0) :=
  ⟨by norm_num,
   (C4_shell_X_on_axis 2 1 (3/2) 0 (by norm_num) (by norm_num)
     (by norm_num) (by norm_num) (by norm_num)).2⟩

/-- The `switch (which_tree / 4)` of `shell_X`, factored out (definitional
equality with `p8est_geometry_shell_X` is checked by `shell_X_eq_switch`). -/
def shell_switch (q x y : ℝ) : ℕ → Vec3 := fun p =>
  if p = 3 then (q * y, -(q * x), q)
  else if p = 2 then (-q, -(q * x), q * y)
  else if p = 1 then (-(q * y), -(q * x), -q)
  else if p = 0 then (q, -(q * x), -(q * y))
  else if p = 4 then (-(q * x), q, q * y)
  else if p = 5 then (q * x, -q, q * y)
  else (0, 0, 0)

/-- `shell_X` is the factored switch applied to `q`, `x`, `y`. -/
lemma shell_X_eq_switch (R2 R1 : ℝ) (which_tree : ℕ) (abc : Vec3) :
    p8est_geometry_shell_X R2 R1 which_tree abc =
      shell_switch
        (R1 * R1 / R2 * (R2 / R1) ^ abc.2.2 /
          Real.sqrt (Real.tan (abc.1 * (Real.pi / 4)) *
            Real.tan (abc.1 * (Real.pi / 4)) +
            Real.tan (abc.2.1 * (Real.pi / 4)) *
            Real.tan (abc.2.1 * (Real.pi / 4)) + 1))
        (Real.tan (abc.1 * (Real.pi / 4)))
        (Real.tan (abc.2.1 * (Real.pi / 4))) (which_tree / 4) := rfl

lemma shell_switch_0 (q x y : ℝ) :
    shell_switch q x y 0 = (q, -(q * x), -(q * y)) := rfl

lemma shell_switch_1 (q x y : ℝ) :
    shell_switch q x y 1 = (-(q * y), -(q * x), -q) := rfl

lemma shell_switch_2 (q x y : ℝ) :
    shell_switch q x y 2 = (-q, -(q * x), q * y) := rfl

lemma shell_switch_3 (q x y : ℝ) :
    shell_switch q x y 3 = (q * y, -(q * x), q) := rfl

lemma shell_switch_4 (q x y : ℝ) :
    shell_switch q x y 4 = (-(q * x), q, q * y) := rfl

lemma shell_switch_5 (q x y : ℝ) :
    shell_switch q x y 5 = (q * x, -q, q * y) := rfl

/-- The square of `r / u` scaled back by `x² + y² + 1` is `r²` when
`u = √(x² + y² + 1)`. -/
lemma qsum (r u x y : ℝ) (hu : u * u = x * x + y * y + 1) (hune : u ≠ 0) :
    r / u * (r / u) * (x * x + y * y + 1) = r * r := by
  rw [← hu, div_mul_div_comm, div_mul_cancel₀ _ (mul_ne_zero hune hune)]

/-- C9: for the shell geometry with `0 < R1 < R2`, the Euclidean norm of
the point returned by `X` equals `(R1²/R2)·(R2/R1)^abc[2]`, independently
of `abc[0]`, `abc[1]` and of the tree; consequently the reference face
`abc[2] = 1` lands on the sphere of radius `R1` and the face `abc[2] = 2`
on the sphere of radius `R2`. -/
theorem C9_shell_X_norm (R2 R1 a b c : ℝ) (which_tree : ℕ)
    (hR1 : 0 < R1) (hR12 : R1 < R2) (ht : which_tree < 24)
    (ha1 : -1 ≤ a) (ha2 : a ≤ 1) (hb1 : -1 ≤ b) (hb2 : b ≤ 1)
    (hc1 : 1 ≤ c) (hc2 : c ≤ 2) :
    norm3 (p8est_geometry_shell_X R2 R1 which_tree (a, b, c)) =
      R1 * R1 / R2 * (R2 / R1) ^ c ∧
    norm3 (p8est_geometry_shell_X R2 R1 which_tree (a, b, 1)) = R1 ∧
    norm3 (p8est_geometry_shell_X R2 R1 which_tree (a, b, 2)) = R2 := by
  have hR2 : 0 < R2 := hR1.trans hR12
  have key : ∀ z : ℝ,
      norm3 (p8est_geometry_shell_X R2 R1 which_tree (a, b, z)) =
        R1 * R1 / R2 * (R2 / R1) ^ z := by
    intro z
    have h6 : which_tree / 4 = 0 ∨ which_tree / 4 = 1 ∨
        which_tree / 4 = 2 ∨ which_tree / 4 = 3 ∨ which_tree / 4 = 4 ∨
        which_tree / 4 = 5 := by omega
    have hRpos : 0 < R1 * R1 / R2 * (R2 / R1) ^ z :=
      mul_pos (div_pos (mul_pos hR1 hR1) hR2)
        (Real.rpow_pos_of_pos (div_pos hR2 hR1) z)
    have hs : 0 < Real.tan (a * (Real.pi / 4)) *
        Real.tan (a * (Real.pi / 4)) +
        Real.tan (b * (Real.pi / 4)) * Real.tan (b * (Real.pi / 4)) + 1 := by
      nlinarith [mul_self_nonneg (Real.tan (a * (Real.pi / 4))),
        mul_self_nonneg (Real.tan (b * (Real.pi / 4)))]
    have hu : Real.sqrt (Real.tan (a * (Real.pi / 4)) *
        Real.tan (a * (Real.pi / 4)) +
        Real.tan (b * (Real.pi / 4)) * Real.tan (b * (Real.pi / 4)) + 1) *
        Real.sqrt (Real.tan (a * (Real.pi / 4)) *
        Real.tan (a * (Real.pi / 4)) +
        Real.tan (b * (Real.pi / 4)) * Real.tan (b * (Real.pi / 4)) + 1) =
        Real.tan (a * (Real.pi / 4)) * Real.tan (a * (Real.pi / 4)) +
        Real.tan (b * (Real.pi / 4)) * Real.tan (b * (Real.pi / 4)) + 1 :=
      Real.mul_self_sqrt hs.le
    have hune : Real.sqrt (Real.tan (a * (Real.pi / 4)) *
        Real.tan (a * (Real.pi / 4)) +
        Real.tan (b * (Real.pi / 4)) * Real.tan (b * (Real.pi / 4)) + 1) ≠
        0 := by
      intro h0
      rw [h0, zero_mul] at hu
      exact hs.ne (by linarith)
    rcases h6 with h | h | h | h | h | h <;>
      · rw [shell_X_eq_switch, h]
        simp only [shell_switch_0, shell_switch_1, shell_switch_2,
          shell_switch_3, shell_switch_4, shell_switch_5]
        apply norm3_of_sum _ _ hRpos.le
        dsimp only
        rw [← qsum (R1 * R1 / R2 * (R2 / R1) ^ z)
          (Real.sqrt (Real.tan (a * (Real.pi / 4)) *
            Real.tan (a * (Real.pi / 4)) +
            Real.tan (b * (Real.pi / 4)) * Real.tan (b * (Real.pi / 4)) + 1))
          (Real.tan (a * (Real.pi / 4))) (Real.tan (b * (Real.pi / 4)))
          hu hune]
        ring
  refine ⟨key c, ?_, ?_⟩
  · rw [key 1, Real.rpow_one]
    field_simp
  · rw [key 2, Real.rpow_two]
    field_simp
    ring

/-- Witness for C9 with `R1 = 1`, `R2 = 2`, tree 3, `abc = (1/2, 1/2, 1)`. -/
theorem C9_shell_X_norm_witness :
    ((0:ℝ) < 1 ∧ (1:ℝ) < 2 ∧ (3:ℕ) < 24 ∧ (-1:ℝ) ≤ 1/2 ∧ (1/2:ℝ) ≤ 1 ∧
     (1:ℝ) ≤ 1 ∧ (1:ℝ) ≤ 2) ∧
    norm3 (p8est_geometry_shell_X 2 1 3 (1/2, 1/2, 1)) = 1 :=
  ⟨by norm_num,
   (C9_shell_X_norm 2 1 (1/2) (1/2) 1 3 (by norm_num) (by norm_num)
     (by norm_num) (by norm_num) (by norm_num) (by norm_num) (by norm_num)
     (by norm_num) (by norm_num)).2.1⟩

/-- C10: the shell geometry operations depend on the tree index only
through `which_tree / 4`, and the numeric result of `D` does not depend on
the tree index at all. -/
theorem C10_shell_tree_dependence (R2 R1 : ℝ) (abc : Vec3) (t u : ℕ)
    (ht : t < 24) (hu : u < 24) :
    (t / 4 = u / 4 →
      p8est_geometry_shell_X R2 R1 t abc =
        p8est_geometry_shell_X R2 R1 u abc ∧
      p8est_geometry_shell_J R2 R1 t abc =
        p8est_geometry_shell_J R2 R1 u abc ∧
      p8est_geometry_shell_D R2 R1 t abc =
        p8est_geometry_shell_D R2 R1 u abc) ∧
    p8est_geometry_shell_D R2 R1 t abc =
      p8est_geometry_shell_D R2 R1 u abc := by
  refine ⟨fun h => ⟨?_, ?_, rfl⟩, rfl⟩
  · simp only [p8est_geometry_shell_X, h]
  · simp only [p8est_geometry_shell_J, h]

/-- Witness for C10 at trees 1 and 2 (same patch `1/4 = 2/4 = 0`). -/
theorem C10_shell_tree_dependence_witness :
    ((1:ℕ) < 24 ∧ (2:ℕ) < 24 ∧ (1:ℕ) / 4 = (2:ℕ) / 4) ∧
    p8est_geometry_shell_X 2 1 1 (0, 0, 1) =
      p8est_geometry_shell_X 2 1 2 (0, 0, 1) :=
  ⟨by norm_num,
   ((C10_shell_tree_dependence 2 1 (0, 0, 1) 1 2 (by norm_num)
     (by norm_num)).1 (by norm_num)).1⟩

/-- C6: for the sphere geometry's center-cube tree 12, `X` scales `abc`
componentwise by `R0/√3`, `J` is the constant diagonal matrix with entries
`R0/√3` returning the constant `CdetJ = (R0/√3)^3`, and `D` returns that
same constant, which equals `(R0/√3)` cubed; in particular with `R0 = 1/2`
and `abc = (1,1,1)`, `X` returns `(0.5/√3, 0.5/√3, 0.5/√3)` and `D`
returns `(0.5/√3)^3`. -/
theorem C6_sphere_center_cube (R2 R1 R0 : ℝ) (abc : Vec3) :
    p8est_geometry_sphere_X R2 R1 R0 12 abc =
      (abc.1 * (R0 / Real.sqrt 3), abc.2.1 * (R0 / Real.sqrt 3),
       abc.2.2 * (R0 / Real.sqrt 3)) ∧
    p8est_geometry_sphere_J R2 R1 R0 12 abc =
      (⟨R0 / Real.sqrt 3, 0, 0, 0, R0 / Real.sqrt 3, 0, 0, 0,
        R0 / Real.sqrt 3⟩, (R0 / Real.sqrt 3) ^ (3:ℝ)) ∧
    p8est_geometry_sphere_D R2 R1 R0 12 abc = (R0 / Real.sqrt 3) ^ (3:ℝ) ∧
    (R0 / Real.sqrt 3) ^ (3:ℝ) =
      R0 / Real.sqrt 3 * (R0 / Real.sqrt 3) * (R0 / Real.sqrt 3) ∧
    p8est_geometry_sphere_X 2 1 (1/2) 12 (1, 1, 1) =
      (1 / 2 / Real.sqrt 3, 1 / 2 / Real.sqrt 3, 1 / 2 / Real.sqrt 3) ∧
    p8est_geometry_sphere_D 2 1 (1/2) 12 (1, 1, 1) =
      (1 / 2 / Real.sqrt 3) ^ (3:ℝ) := by
  refine ⟨?_, ?_, ?_, ?_, ?_, ?_⟩
  · simp only [p8est_geometry_sphere_X,
      if_neg (show ¬ (12:ℕ) < 6 by norm_num),
      if_neg (show ¬ (12:ℕ) < 12 by norm_num)]
  · simp only [p8est_geometry_sphere_J,
      if_neg (show ¬ (12:ℕ) < 6 by norm_num),
      if_neg (show ¬ (12:ℕ) < 12 by norm_num)]
  · simp only [p8est_geometry_sphere_D,
      if_neg (show ¬ (12:ℕ) < 6 by norm_num),
      if_neg (show ¬ (12:ℕ) < 12 by norm_num)]
  · rw [show (3:ℝ) = ((3:ℕ):ℝ) by norm_num, Real.rpow_natCast]
    ring
  · simp only [p8est_geometry_sphere_X,
      if_neg (show ¬ (12:ℕ) < 6 by norm_num),
      if_neg (show ¬ (12:ℕ) < 12 by norm_num)]
    norm_num
  · simp only [p8est_geometry_sphere_D,
      if_neg (show ¬ (12:ℕ) < 6 by norm_num),
      if_neg (show ¬ (12:ℕ) < 12 by norm_num)]

lemma sphere_patch_0 (q x y : ℝ) :
    sphere_patch q x y 0 = (q * x, -q, q * y) := rfl

lemma sphere_patch_1 (q x y : ℝ) :
    sphere_patch q x y 1 = (q * x, q * y, q) := rfl

lemma sphere_patch_2 (q x y : ℝ) :
    sphere_patch q x y 2 = (q * x, q, -(q * y)) := rfl

lemma sphere_patch_3 (q x y : ℝ) :
    sphere_patch q x y 3 = (q, -(q * x), -(q * y)) := rfl

lemma sphere_patch_4 (q x y : ℝ) :
    sphere_patch q x y 4 = (-(q * y), -(q * x), -q) := rfl

lemma sphere_patch_5 (q x y : ℝ) :
    sphere_patch q x y 5 = (-q, -(q * x), q * y) := rfl

lemma sphere_patch_congr (q q' x x' y y' : ℝ) (n : ℕ)
    (hq : q = q') (hx : x = x') (hy : y = y') :
    sphere_patch q x y n = sphere_patch q' x' y' n := by
  rw [hq, hx, hy]

/-- C5: sphere `X` is continuous across the two radial patch interfaces:
(i) for every inner-shell tree `t ∈ [6,12)`, `X` at `(t, (a,b,2))` equals
`X` at the outer-shell tree `t-6` evaluated at `(a,b,1)` (both give radius
`R1` with the same patch sign table); and (ii) at `abc[2] = 1` the
inner-shell map degenerates to the linear cube map with `q = R0/√3`, so
`X (t, (a,b,1))` is the sign permutation of `(1,a,b)` scaled by `R0/√3`,
matching the center-cube map of tree 12 on the corresponding face point. -/
theorem C5_sphere_patch_continuity (R2 R1 R0 a b : ℝ) (t : ℕ)
    (hR0 : 0 < R0) (hR01 : R0 < R1) (hR12 : R1 < R2)
    (ht6 : 6 ≤ t) (ht12 : t < 12) :
    p8est_geometry_sphere_X R2 R1 R0 t (a, b, 2) =
      p8est_geometry_sphere_X R2 R1 R0 (t - 6) (a, b, 1) ∧
    p8est_geometry_sphere_X R2 R1 R0 t (a, b, 1) =
      sphere_patch (R0 / Real.sqrt 3) a b (t % 6) ∧
    p8est_geometry_sphere_X R2 R1 R0 t (a, b, 1) =
      p8est_geometry_sphere_X R2 R1 R0 12 (sphere_patch 1 a b (t % 6)) := by
  have hR1 : 0 < R1 := hR0.trans hR01
  have hR2 : 0 < R2 := hR1.trans hR12
  have hii : p8est_geometry_sphere_X R2 R1 R0 t (a, b, 1) =
      sphere_patch (R0 / Real.sqrt 3) a b (t % 6) := by
    simp only [p8est_geometry_sphere_X, if_neg (show ¬ t < 6 by omega),
      if_pos ht12]
    apply sphere_patch_congr
    · rw [show (2:ℝ) - 1 = 1 by norm_num, Real.rpow_one,
        show (1:ℝ) + (1 - 1) * (Real.tan (a * (Real.pi / 4)) *
          Real.tan (a * (Real.pi / 4)) + Real.tan (b * (Real.pi / 4)) *
          Real.tan (b * (Real.pi / 4))) + 2 * 1 = 3 by ring]
      rw [show R0 * R0 / R1 * (R1 / R0) = R0 by field_simp]
    · rw [show (2:ℝ) - 1 = 1 by norm_num]
      ring
    · rw [show (2:ℝ) - 1 = 1 by norm_num]
      ring
  refine ⟨?_, hii, ?_⟩
  · simp only [p8est_geometry_sphere_X, if_neg (show ¬ t < 6 by omega),
      if_pos ht12, if_pos (show t - 6 < 6 by omega)]
    rw [show t % 6 = (t - 6) % 6 by omega]
    apply sphere_patch_congr
    · rw [show (2:ℝ) - 2 = 0 by norm_num, Real.rpow_two, Real.rpow_one,
        show (1:ℝ) + (1 - 0) * (Real.tan (a * (Real.pi / 4)) *
          Real.tan (a * (Real.pi / 4)) + Real.tan (b * (Real.pi / 4)) *
          Real.tan (b * (Real.pi / 4))) + 2 * 0 =
          Real.tan (a * (Real.pi / 4)) * Real.tan (a * (Real.pi / 4)) +
          Real.tan (b * (Real.pi / 4)) * Real.tan (b * (Real.pi / 4)) + 1
          by ring]
      congr 1
      rw [div_pow]
      field_simp
      ring
    · rw [show (2:ℝ) - 2 = 0 by norm_num]
      ring
    · rw [show (2:ℝ) - 2 = 0 by norm_num]
      ring
  · rw [hii]
    simp only [p8est_geometry_sphere_X,
      if_neg (show ¬ (12:ℕ) < 6 by norm_num),
      if_neg (show ¬ (12:ℕ) < 12 by norm_num)]
    have hm : t % 6 = 0 ∨ t % 6 = 1 ∨ t % 6 = 2 ∨ t % 6 = 3 ∨
        t % 6 = 4 ∨ t % 6 = 5 := by omega
    rcases hm with h | h | h | h | h | h <;>
      · rw [h]
        simp only [sphere_patch_0, sphere_patch_1, sphere_patch_2,
          sphere_patch_3, sphere_patch_4, sphere_patch_5]
        simp only [Prod.mk.injEq]
        refine ⟨by ring, by ring, by ring⟩

/-- Witness for C5 at `R0 = 1`, `R1 = 2`, `R2 = 3`, inner tree 7. -/
theorem C5_sphere_patch_continuity_witness :
    ((0:ℝ) < 1 ∧ (1:ℝ) < 2 ∧ (2:ℝ) < 3 ∧ (6:ℕ) ≤ 7 ∧ (7:ℕ) < 12) ∧
    p8est_geometry_sphere_X 3 2 1 7 ((1:ℝ)/2, (1:ℝ)/3, 2) =
      p8est_geometry_sphere_X 3 2 1 1 ((1:ℝ)/2, (1:ℝ)/3, 1) :=
  ⟨by norm_num,
   (C5_sphere_patch_continuity 3 2 1 (1/2) (1/3) 7 (by norm_num)
     (by norm_num) (by norm_num) (by norm_num) (by norm_num)).1⟩

end P8est
